import Mathlib

/-!
Shallow embedding of the persistence/synchronization core of
svelte-persisted-state (src/src/lib/index.svelte.ts and the IndexedDB
storage module).

Modelling conventions:
* JavaScript exceptions are modelled with Option: a throwing callback or
  serializer step returns none.
* The error callbacks (onWriteError, onParseError, onHydrationError) and
  onHydrated are modelled as counters / call lists on the machine state.
* A Svelte 5 reactive assignment to a tracked variable schedules the
  persistence effect; the machine runs the effect body immediately after
  each such assignment (tests drain the task queue the same way).
  The body of the effect is translated verbatim from the source.
* The backend storage area (localStorage / sessionStorage / cookie jar,
  and the IndexedDB object store) is a key-indexed partial map carried in
  the machine state; a backend write primitive that throws is modelled by
  the writeOk predicate of the configuration.
-/

namespace PersistedState

/-- A serializer: parse and stringify may throw (none). Source: the
Serializer type of index.svelte.ts. -/
structure Serializer (α : Type) where
  parse : String → Option α
  stringify : α → Option String

/-- Storage types of the synchronous container (source: StorageType). -/
inductive StorageType
  | localStore
  | sessionStore
  | cookieStore
deriving DecidableEq, Repr

/-- Configuration of the synchronous container: the arguments and resolved
option defaults of persistedState. writeOk models whether the backend
setItem primitive succeeds for a given key and raw string (a false result
models the primitive throwing, e.g. quota exceeded). -/
structure SyncCfg (α : Type) where
  key : String
  initialValue : α
  storage : StorageType
  serializer : Serializer α
  syncTabs : Bool
  beforeRead : α → Option α
  beforeWrite : α → Option α
  writeOk : String → String → Bool

/-- Observable state of one synchronous container plus its backend area.
writeCalls counts invocations of the backend setItem primitive;
parseCalls counts invocations of serializer.parse; writeErrors and
parseErrors count onWriteError / onParseError invocations. -/
structure SyncState (α : Type) where
  state : α
  store : String → Option String
  writeCalls : Nat
  parseCalls : Nat
  writeErrors : Nat
  parseErrors : Nat

/-- The updateStorage function of the synchronous container: apply
beforeWrite, stringify and write to the backend inside one try block; any
failure is routed to onWriteError and swallowed. -/
def updateStorage {α : Type} (cfg : SyncCfg α) (value : α) (st : SyncState α) :
    SyncState α :=
  match (cfg.beforeWrite value).bind cfg.serializer.stringify with
  | none => { st with writeErrors := st.writeErrors + 1 }
  | some raw =>
    if cfg.writeOk cfg.key raw then
      { st with
          writeCalls := st.writeCalls + 1,
          store := fun k => if k = cfg.key then some raw else st.store k }
    else
      { st with
          writeCalls := st.writeCalls + 1,
          writeErrors := st.writeErrors + 1 }

/-- Assigning a new value to the reactive state variable; the persistence
effect (which reads state and calls updateStorage) reruns on it. -/
def syncAssign {α : Type} (cfg : SyncCfg α) (v : α) (st : SyncState α) :
    SyncState α :=
  updateStorage cfg v { st with state := v }

/-- The setter of the current property of the synchronous container. -/
def syncSetCurrent {α : Type} (cfg : SyncCfg α) (v : α) (st : SyncState α) :
    SyncState α :=
  syncAssign cfg v st

/-- The reset method: assigns initialValue to the state variable, which is
an ordinary mutation and triggers the same persistence effect. -/
def syncReset {α : Type} (cfg : SyncCfg α) (st : SyncState α) : SyncState α :=
  syncAssign cfg cfg.initialValue st

/-- Construction of the synchronous container (persistedState): read the
backend once; the raw item is used only when truthy (a null/absent item
and the empty string are both falsy in JavaScript), in which case
beforeRead (serializer.parse item) seeds the state, any throw falling back
to initialValue via onParseError; then the effect root runs the
persistence effect once on the seeded state. -/
def persistedState {α : Type} (cfg : SyncCfg α) (store : String → Option String) :
    SyncState α :=
  let seed : α × Nat × Nat :=
    match store cfg.key with
    | none => (cfg.initialValue, 0, 0)
    | some item =>
      if item = "" then (cfg.initialValue, 0, 0)
      else
        match (cfg.serializer.parse item).bind cfg.beforeRead with
        | some v => (v, 1, 0)
        | none => (cfg.initialValue, 1, 1)
  let st0 : SyncState α :=
    { state := seed.1, store := store, writeCalls := 0,
      parseCalls := seed.2.1, writeErrors := 0, parseErrors := seed.2.2 }
  updateStorage cfg st0.state st0

/-- A platform storage-change notification as observed by the handler:
its key, its new raw value (none models a removed entry) and whether its
storage area is localStorage. -/
structure StorageEvt where
  key : Option String
  newValue : Option String
  areaIsLocal : Bool

/-- The storage event handler of the synchronous container (registered
only when syncTabs is on and the backend is the local store): on a
matching key and area, the candidate value is serializer.parse newValue
when newValue is truthy and initialValue otherwise; beforeRead is applied
to the candidate and the result assigned to state (rerunning the
persistence effect); any throw goes to onParseError and leaves the state
variable unassigned. -/
def storageEvent {α : Type} (cfg : SyncCfg α) (ev : StorageEvt) (st : SyncState α) :
    SyncState α :=
  if cfg.syncTabs = true ∧ cfg.storage = StorageType.localStore then
    if ev.key = some cfg.key ∧ ev.areaIsLocal = true then
      match ev.newValue with
      | some s =>
        if s = "" then
          match cfg.beforeRead cfg.initialValue with
          | some w => syncAssign cfg w st
          | none => { st with parseErrors := st.parseErrors + 1 }
        else
          match cfg.serializer.parse s with
          | none =>
            { st with parseCalls := st.parseCalls + 1,
                      parseErrors := st.parseErrors + 1 }
          | some v =>
            match cfg.beforeRead v with
            | some w => syncAssign cfg w { st with parseCalls := st.parseCalls + 1 }
            | none =>
              { st with parseCalls := st.parseCalls + 1,
                        parseErrors := st.parseErrors + 1 }
      | none =>
        match cfg.beforeRead cfg.initialValue with
        | some w => syncAssign cfg w st
        | none => { st with parseErrors := st.parseErrors + 1 }
    else st
  else st

/-- A codec abstracts the serializer-or-native branch of the asynchronous
container: the source computes valueToStore as serializer.stringify when a
serializer is supplied and passes the value through otherwise, and
symmetrically for reads. ρ is the raw type held by the object store. -/
structure Codec (α ρ : Type) where
  enc : α → Option ρ
  dec : ρ → Option α

/-- The codec instantiation for a supplied serializer (raw values are
strings). -/
def serializerCodec {α : Type} (s : Serializer α) : Codec α String :=
  { enc := s.stringify, dec := s.parse }

/-- The codec instantiation for no serializer (values stored in native
structured form, no transformation, never failing). -/
def nativeCodec {α : Type} : Codec α α :=
  { enc := fun v => some v, dec := fun v => some v }

/-- The readiness future of the asynchronous container: pending at
construction, then resolved with a value or rejected, exactly once. -/
inductive Ready (α : Type)
  | pending
  | resolved (v : α)
  | rejected
deriving DecidableEq, Repr

/-- Configuration of the asynchronous container: the arguments and
resolved option defaults of persistedStateAsync. writeOk models whether
the idbSetItem write for a given key and raw value succeeds (false models
its promise rejecting). -/
structure AsyncCfg (α ρ : Type) where
  key : String
  initialValue : α
  codec : Codec α ρ
  syncTabs : Bool
  beforeRead : α → Option α
  beforeWrite : α → Option α
  writeOk : String → ρ → Bool

/-- Observable state of one asynchronous container plus its object store.
skipNextWrite and isFirstRun are the untracked guard flags of the source;
broadcasts collects outbound channel messages; hydratedCalls collects the
arguments of onHydrated invocations; the error counters count the
corresponding callback invocations. -/
structure AsyncState (α ρ : Type) where
  state : α
  isLoading : Bool
  ready : Ready α
  skipNextWrite : Bool
  isFirstRun : Bool
  idb : String → Option ρ
  broadcasts : List (String × ρ)
  parseErrors : Nat
  writeErrors : Nat
  hydrationErrors : Nat
  hydratedCalls : List α

/-- The body of the persistence effect of the asynchronous container,
translated statement by statement: compute valueToStore (beforeWrite then
stringify-or-pass-through, any throw goes to onWriteError and returns
early); on the first run only clear the first-run flag; write and then
broadcast when not loading and not suppressed, a rejected write going to
onWriteError; finally clear the suppression flag if it was set. -/
def asyncEffectRun {α ρ : Type} (cfg : AsyncCfg α ρ) (st : AsyncState α ρ) :
    AsyncState α ρ :=
  match (cfg.beforeWrite st.state).bind cfg.codec.enc with
  | none => { st with writeErrors := st.writeErrors + 1 }
  | some raw =>
    if st.isFirstRun then { st with isFirstRun := false }
    else
      let st1 :=
        if st.isLoading = false ∧ st.skipNextWrite = false then
          if cfg.writeOk cfg.key raw then
            { st with
                idb := fun k => if k = cfg.key then some raw else st.idb k,
                broadcasts :=
                  if cfg.syncTabs then st.broadcasts ++ [(cfg.key, raw)]
                  else st.broadcasts }
          else { st with writeErrors := st.writeErrors + 1 }
        else st
      if st1.skipNextWrite then { st1 with skipNextWrite := false } else st1

/-- Assigning a new value to the reactive state variable of the
asynchronous container; the persistence effect reruns on it. -/
def asyncAssign {α ρ : Type} (cfg : AsyncCfg α ρ) (v : α) (st : AsyncState α ρ) :
    AsyncState α ρ :=
  asyncEffectRun cfg { st with state := v }

/-- The setter of the current property of the asynchronous container. -/
def asyncSetCurrent {α ρ : Type} (cfg : AsyncCfg α ρ) (v : α)
    (st : AsyncState α ρ) : AsyncState α ρ :=
  asyncAssign cfg v st

/-- The reset method of the asynchronous container. -/
def asyncReset {α ρ : Type} (cfg : AsyncCfg α ρ) (st : AsyncState α ρ) :
    AsyncState α ρ :=
  asyncAssign cfg cfg.initialValue st

/-- Construction of the asynchronous container (persistedStateAsync) up to
the suspension point of hydrate: the cell holds initialValue, isLoading is
true, the readiness future is pending, hydrate has suspended on its await
and the effect root has run the persistence effect once (consuming the
first-run guard). -/
def persistedStateAsync {α ρ : Type} (cfg : AsyncCfg α ρ)
    (idb : String → Option ρ) : AsyncState α ρ :=
  asyncEffectRun cfg
    { state := cfg.initialValue, isLoading := true, ready := Ready.pending,
      skipNextWrite := false, isFirstRun := true, idb := idb,
      broadcasts := [], parseErrors := 0, writeErrors := 0,
      hydrationErrors := 0, hydratedCalls := [] }

/-- Outcome of the awaited idbGetItem of hydrate: the read resolved with
the stored raw value (none when the key is absent), or the open /
connection-level read rejected. -/
inductive HydrationRead (ρ : Type)
  | ok (r : Option ρ)
  | connErr
deriving DecidableEq, Repr

/-- The resumption of hydrate after its await, translated from the source:
on a resolved read holding a value, parse-or-pass-through then beforeRead
inside a try whose catch invokes onParseError and assigns initialValue;
then isLoading clears, onHydrated fires with the current cell value and
the readiness future resolves with it. On a rejected read,
onHydrationError fires, isLoading clears and the readiness future
rejects. The persistence effect reruns afterwards because isLoading (and
possibly the state cell) was assigned. -/
def hydrate {α ρ : Type} (cfg : AsyncCfg α ρ) (read : HydrationRead ρ)
    (st : AsyncState α ρ) : AsyncState α ρ :=
  match read with
  | HydrationRead.connErr =>
    asyncEffectRun cfg
      { st with hydrationErrors := st.hydrationErrors + 1,
                isLoading := false, ready := Ready.rejected }
  | HydrationRead.ok none =>
    asyncEffectRun cfg
      { st with isLoading := false,
                hydratedCalls := st.hydratedCalls ++ [st.state],
                ready := Ready.resolved st.state }
  | HydrationRead.ok (some r) =>
    let st1 :=
      match (cfg.codec.dec r).bind cfg.beforeRead with
      | some w => { st with state := w }
      | none =>
        { st with parseErrors := st.parseErrors + 1,
                  state := cfg.initialValue }
    asyncEffectRun cfg
      { st1 with isLoading := false,
                 hydratedCalls := st1.hydratedCalls ++ [st1.state],
                 ready := Ready.resolved st1.state }

/-- A broadcast channel message as observed by the onmessage handler. -/
structure BroadcastMsg (ρ : Type) where
  key : String
  value : ρ

/-- The broadcast onmessage handler (registered only when syncTabs is on):
on a matching key, the suppression flag is set, the value parsed or taken
as-is, beforeRead applied and the result assigned to the state cell
(rerunning the persistence effect); any throw clears the suppression flag
and goes to onParseError, leaving the cell unassigned. Non-matching keys
are ignored. -/
def broadcastRecv {α ρ : Type} (cfg : AsyncCfg α ρ) (msg : BroadcastMsg ρ)
    (st : AsyncState α ρ) : AsyncState α ρ :=
  if cfg.syncTabs = true ∧ msg.key = cfg.key then
    match (cfg.codec.dec msg.value).bind cfg.beforeRead with
    | some w => asyncEffectRun cfg { st with skipNextWrite := true, state := w }
    | none =>
      { st with skipNextWrite := false, parseErrors := st.parseErrors + 1 }
  else st

/-- Options of the IndexedDB storage module. -/
structure IndexedDBOptions where
  dbName : Option String := none
  storeName : Option String := none
  version : Option Nat := none

/-- A cached connection: an identifier of the underlying database handle
plus the object-store name (source: DBConnection). -/
structure DBConnection where
  db : Nat
  storeName : String
deriving DecidableEq, Repr

/-- The connection registry: the module-level connectionCache keyed by the
cache-key string, a supply of fresh handle identifiers, and the set of
handle identifiers not yet closed (db.close marks a handle closed). -/
structure Registry where
  cache : List (String × DBConnection)
  nextId : Nat
  openHandles : List Nat
deriving DecidableEq, Repr

/-- The cache key of an identity triple (source: getCacheKey). -/
def getCacheKey (dbName storeName : String) (version : Nat) : String :=
  dbName ++ ":" ++ storeName ++ ":" ++ toString version

/-- Lookup in the connection cache (Map.get). -/
def lookupCache (cache : List (String × DBConnection)) (k : String) :
    Option DBConnection :=
  match cache with
  | [] => none
  | (k2, c) :: rest => if k2 = k then some c else lookupCache rest k

/-- The cache key resolved from partial options with the module defaults
(dbName svelte-persisted-state, storeName state, version 1). -/
def resolvedCacheKey (options : IndexedDBOptions) : String :=
  getCacheKey (options.dbName.getD "svelte-persisted-state")
    (options.storeName.getD "state") (options.version.getD 1)

/-- openDB: resolve the defaults, return the cached connection for the
identity triple when present, otherwise open a fresh handle, cache it and
return it. -/
def openDB (options : IndexedDBOptions) (r : Registry) :
    DBConnection × Registry :=
  let storeName := options.storeName.getD "state"
  let cacheKey := resolvedCacheKey options
  match lookupCache r.cache cacheKey with
  | some cached => (cached, r)
  | none =>
    let conn : DBConnection := { db := r.nextId, storeName := storeName }
    (conn,
      { cache := (cacheKey, conn) :: r.cache,
        nextId := r.nextId + 1,
        openHandles := r.nextId :: r.openHandles })

/-- closeDB: resolve the defaults; when the identity triple is cached,
close its handle and evict the entry, otherwise do nothing. -/
def closeDB (options : IndexedDBOptions) (r : Registry) : Registry :=
  let cacheKey := resolvedCacheKey options
  match lookupCache r.cache cacheKey with
  | some cached =>
    { r with
        openHandles := r.openHandles.erase cached.db,
        cache := r.cache.filter (fun p => p.1 != cacheKey) }
  | none => r

/-- closeAllDBs: close every cached handle and clear the cache. -/
def closeAllDBs (r : Registry) : Registry :=
  { r with
      openHandles :=
        r.openHandles.filter (fun i => !(r.cache.any (fun p => p.2.db == i))),
      cache := [] }

/-- Cookie attribute options (source: CookieOptions). A JavaScript number
of days is modelled as Nat (the claims concern whole-day counts); maxAge
is an Int of seconds. -/
structure CookieOptions where
  expireDays : Option Nat := none
  maxAge : Option Int := none
  path : Option String := none
  domain : Option String := none
  secure : Option Bool := none
  sameSite : Option String := none
  httpOnly : Option Bool := none

/-- setCookie, translated statement by statement. now is the current time
in milliseconds; enc models encodeURIComponent and toUTC models
Date.toUTCString, both platform functions taken as parameters. The
day-count expiry is now + expireDays * 864e5 milliseconds. A domain
option that is undefined or the empty string is falsy and emits no domain
attribute. -/
def setCookie (name value : String) (options : CookieOptions) (now : Nat)
    (enc : String → String) (toUTC : Nat → String) : String :=
  let expireDays := options.expireDays.getD 365
  let path := options.path.getD "/"
  let secure := options.secure.getD false
  let sameSite := options.sameSite.getD "Lax"
  let httpOnly := options.httpOnly.getD false
  let s1 := name ++ "=" ++ enc value
  let s2 := s1 ++ "; path=" ++ path
  let s3 :=
    match options.maxAge with
    | some m => s2 ++ "; max-age=" ++ toString m
    | none => s2 ++ "; expires=" ++ toUTC (now + expireDays * 86400000)
  let s4 :=
    match options.domain with
    | some d => if d = "" then s3 else s3 ++ "; domain=" ++ d
    | none => s3
  let s5 := if secure then s4 ++ "; secure" else s4
  let s6 := s5 ++ "; samesite=" ++ sameSite
  if httpOnly then s6 ++ "; httponly" else s6

/-! Helper lemmas: the persistence effects never touch the reactive cell,
the readiness future, the loading flag or the parse counters. -/

theorem updateStorage_preserves {α : Type} (cfg : SyncCfg α) (v : α)
    (st : SyncState α) :
    (updateStorage cfg v st).state = st.state ∧
    (updateStorage cfg v st).parseCalls = st.parseCalls ∧
    (updateStorage cfg v st).parseErrors = st.parseErrors := by
  unfold updateStorage
  cases henc : (cfg.beforeWrite v).bind cfg.serializer.stringify with
  | none => exact ⟨rfl, rfl, rfl⟩
  | some raw => cases hok : cfg.writeOk cfg.key raw <;> simp [hok]

theorem updateStorage_store_of_ok {α : Type} (cfg : SyncCfg α) (v : α)
    (st : SyncState α) (raw : String)
    (henc : (cfg.beforeWrite v).bind cfg.serializer.stringify = some raw)
    (hok : cfg.writeOk cfg.key raw = true) :
    (updateStorage cfg v st).store cfg.key = some raw ∧
    (updateStorage cfg v st).writeCalls = st.writeCalls + 1 := by
  unfold updateStorage
  rw [henc]
  simp [hok]

theorem updateStorage_of_fail {α : Type} (cfg : SyncCfg α) (v : α)
    (st : SyncState α)
    (h : ∀ raw, (cfg.beforeWrite v).bind cfg.serializer.stringify = some raw →
      cfg.writeOk cfg.key raw = false) :
    (updateStorage cfg v st).writeErrors = st.writeErrors + 1 ∧
    (updateStorage cfg v st).store = st.store := by
  unfold updateStorage
  cases henc : (cfg.beforeWrite v).bind cfg.serializer.stringify with
  | none => exact ⟨rfl, rfl⟩
  | some raw => simp [h raw henc]

theorem asyncEffectRun_preserves {α ρ : Type} (cfg : AsyncCfg α ρ)
    (st : AsyncState α ρ) :
    (asyncEffectRun cfg st).state = st.state ∧
    (asyncEffectRun cfg st).isLoading = st.isLoading ∧
    (asyncEffectRun cfg st).ready = st.ready ∧
    (asyncEffectRun cfg st).parseErrors = st.parseErrors ∧
    (asyncEffectRun cfg st).hydrationErrors = st.hydrationErrors ∧
    (asyncEffectRun cfg st).hydratedCalls = st.hydratedCalls := by
  unfold asyncEffectRun
  cases henc : (cfg.beforeWrite st.state).bind cfg.codec.enc with
  | none => exact ⟨rfl, rfl, rfl, rfl, rfl, rfl⟩
  | some raw =>
    cases hfr : st.isFirstRun <;> cases hsk : st.skipNextWrite <;>
      cases hld : st.isLoading <;> cases hok : cfg.writeOk cfg.key raw <;>
      simp [hfr, hsk, hld, hok]

theorem asyncEffectRun_suppressed {α ρ : Type} (cfg : AsyncCfg α ρ)
    (st : AsyncState α ρ) (h : st.skipNextWrite = true) :
    (asyncEffectRun cfg st).idb = st.idb ∧
    (asyncEffectRun cfg st).broadcasts = st.broadcasts := by
  unfold asyncEffectRun
  cases henc : (cfg.beforeWrite st.state).bind cfg.codec.enc with
  | none => simp
  | some raw => cases hfr : st.isFirstRun <;> simp [hfr, h]

/-- C9: for every container, calling reset twice in a row leaves the
current value equal to initialValue, and each reset is the very mutation
the current setter performs with initialValue, so it triggers the same
persist path (beforeWrite, serialize, backend write) persisting
initialValue: after a reset the backend holds the serialized
beforeWrite-image of initialValue (sync part and async part). -/
theorem C9_reset_idempotent :
    (∀ (α : Type) (cfg : SyncCfg α) (st : SyncState α),
      syncReset cfg st = syncSetCurrent cfg cfg.initialValue st ∧
      (syncReset cfg (syncReset cfg st)).state = cfg.initialValue ∧
      (syncReset cfg st).state = cfg.initialValue) ∧
    (∀ (α : Type) (cfg : SyncCfg α) (st : SyncState α) (raw : String),
      (cfg.beforeWrite cfg.initialValue).bind cfg.serializer.stringify =
          some raw →
      cfg.writeOk cfg.key raw = true →
      (syncReset cfg st).store cfg.key = some raw ∧
      (syncReset cfg (syncReset cfg st)).store cfg.key = some raw) ∧
    (∀ (α ρ : Type) (cfg : AsyncCfg α ρ) (st : AsyncState α ρ),
      asyncReset cfg st = asyncSetCurrent cfg cfg.initialValue st ∧
      (asyncReset cfg (asyncReset cfg st)).state = cfg.initialValue ∧
      (asyncReset cfg st).state = cfg.initialValue) := by
  refine ⟨fun α cfg st => ⟨rfl, ?_, ?_⟩, fun α cfg st raw henc hok => ?_,
    fun α ρ cfg st => ⟨rfl, ?_, ?_⟩⟩
  · exact (updateStorage_preserves cfg cfg.initialValue _).1
  · exact (updateStorage_preserves cfg cfg.initialValue _).1
  · exact ⟨(updateStorage_store_of_ok cfg cfg.initialValue _ raw henc hok).1,
      (updateStorage_store_of_ok cfg cfg.initialValue _ raw henc hok).1⟩
  · exact (asyncEffectRun_preserves cfg _).1
  · exact (asyncEffectRun_preserves cfg _).1

/-- C9 witness: a concrete run of the sync persist part. -/
theorem C9_reset_idempotent_witness :
    (syncReset
      { key := "k", initialValue := (2 : Nat),
        storage := StorageType.localStore,
        serializer :=
          { parse := fun s => if s = "2" then some 2 else none,
            stringify := fun n => some (if n = 2 then "2" else "z") },
        syncTabs := true, beforeRead := some, beforeWrite := some,
        writeOk := fun _ _ => true }
      { state := 7, store := fun _ => none, writeCalls := 0, parseCalls := 0,
        writeErrors := 0, parseErrors := 0 }).store "k" = some "2" := by
  exact (C9_reset_idempotent.2.1 Nat _ _ "2" (by decide) (by decide)).1

/-- C10: for the synchronous container, a raw stored value equal to the
empty string is treated as absent (JavaScript truthiness): construction
with the empty string stored under the key yields current equal to
initialValue with no parse invocation, and a matching storage-change
notification whose new value is the empty string sets current to
beforeRead initialValue, again without a parse invocation. -/
theorem C10_empty_string_absent :
    (∀ (α : Type) (cfg : SyncCfg α) (store : String → Option String),
      store cfg.key = some "" →
      (persistedState cfg store).state = cfg.initialValue ∧
      (persistedState cfg store).parseCalls = 0) ∧
    (∀ (α : Type) (cfg : SyncCfg α) (st : SyncState α) (w : α),
      cfg.syncTabs = true → cfg.storage = StorageType.localStore →
      cfg.beforeRead cfg.initialValue = some w →
      (storageEvent cfg
          { key := some cfg.key, newValue := some "", areaIsLocal := true }
          st).state = w ∧
      (storageEvent cfg
          { key := some cfg.key, newValue := some "", areaIsLocal := true }
          st).parseCalls = st.parseCalls) := by
  constructor
  · intro α cfg store h
    unfold persistedState
    rw [h]
    simp only [if_pos rfl]
    exact ⟨(updateStorage_preserves cfg _ _).1,
      (updateStorage_preserves cfg _ _).2.1⟩
  · intro α cfg st w hsync hlocal hbr
    unfold storageEvent
    simp only [hsync, hlocal, if_pos rfl, and_self, if_pos, if_true]
    simp only [hbr]
    exact ⟨(updateStorage_preserves cfg _ _).1,
      (updateStorage_preserves cfg _ _).2.1⟩

/-- C10 witness: a concrete container over Nat with a doubling beforeRead
and the empty string stored. -/
theorem C10_empty_string_absent_witness :
    (persistedState
      { key := "k", initialValue := (3 : Nat),
        storage := StorageType.localStore,
        serializer := { parse := fun s => s.toNat?, stringify := fun n => some (toString n) },
        syncTabs := true, beforeRead := fun v => some (2 * v),
        beforeWrite := some, writeOk := fun _ _ => true }
      (fun k => if k = "k" then some "" else none)).state = 3 := by
  exact (C10_empty_string_absent.1 Nat _ _ (by simp)).1

/-- C8: the cookie write emits only the max-age attribute when maxAge is
supplied (the output does not depend on expireDays at all), and with no
options the output is exactly the name, encoded value, path slash, an
expires attribute 365 days from now and samesite Lax, with no domain,
secure, httponly or max-age attribute emitted. -/
theorem C8_cookie_defaults_and_precedence :
    (∀ (name value : String) (o : CookieOptions) (m : Int) (now : Nat)
        (enc : String → String) (toUTC : Nat → String),
      o.maxAge = some m →
      ∀ d : Option Nat,
        setCookie name value o now enc toUTC =
          setCookie name value { o with expireDays := d } now enc toUTC) ∧
    (∀ (name value : String) (now : Nat) (enc : String → String)
        (toUTC : Nat → String),
      setCookie name value {} now enc toUTC =
        name ++ "=" ++ enc value ++ "; path=" ++ "/" ++ "; expires=" ++
          toUTC (now + 365 * 86400000) ++ "; samesite=" ++ "Lax") ∧
    (∀ (name value : String) (m : Int) (now : Nat) (enc : String → String)
        (toUTC : Nat → String),
      setCookie name value { maxAge := some m } now enc toUTC =
        name ++ "=" ++ enc value ++ "; path=" ++ "/" ++ "; max-age=" ++
          toString m ++ "; samesite=" ++ "Lax") := by
  refine ⟨?_, ?_, ?_⟩
  · intro name value o m now enc toUTC h d
    obtain ⟨ed, ma, p, dom, sec, ss, ho⟩ := o
    cases h
    rfl
  · intro name value now enc toUTC
    rfl
  · intro name value m now enc toUTC
    rfl

/-- C8 witness: with both expireDays and maxAge supplied, the emitted
cookie string is independent of the day count. -/
theorem C8_cookie_defaults_and_precedence_witness :
    setCookie "k" "v" { expireDays := some 9, maxAge := some 60 } 0
        (fun s => s) (fun _ => "GMT") =
      setCookie "k" "v" { expireDays := some 400, maxAge := some 60 } 0
        (fun s => s) (fun _ => "GMT") := by
  exact C8_cookie_defaults_and_precedence.1 "k" "v"
    { expireDays := some 9, maxAge := some 60 } 60 0 (fun s => s)
    (fun _ => "GMT") rfl (some 400)

/-- C5: for both containers, a mutation whose persist step fails
(beforeWrite or serialization throwing, or the backend write primitive
failing) leaves the freshly assigned current value in place, leaves the
backend contents unchanged, and invokes onWriteError exactly once; the
failure is swallowed (the step functions are total, nothing propagates). -/
theorem C5_write_failure_isolated :
    (∀ (α : Type) (cfg : SyncCfg α) (st : SyncState α) (v : α),
      (∀ raw, (cfg.beforeWrite v).bind cfg.serializer.stringify = some raw →
        cfg.writeOk cfg.key raw = false) →
      (syncSetCurrent cfg v st).state = v ∧
      (syncSetCurrent cfg v st).writeErrors = st.writeErrors + 1 ∧
      (syncSetCurrent cfg v st).store = st.store) ∧
    (∀ (α ρ : Type) (cfg : AsyncCfg α ρ) (st : AsyncState α ρ) (v : α),
      st.isLoading = false → st.skipNextWrite = false →
      st.isFirstRun = false →
      (∀ raw, (cfg.beforeWrite v).bind cfg.codec.enc = some raw →
        cfg.writeOk cfg.key raw = false) →
      (asyncSetCurrent cfg v st).state = v ∧
      (asyncSetCurrent cfg v st).writeErrors = st.writeErrors + 1 ∧
      (asyncSetCurrent cfg v st).idb = st.idb ∧
      (asyncSetCurrent cfg v st).broadcasts = st.broadcasts) := by
  constructor
  · intro α cfg st v h
    refine ⟨(updateStorage_preserves cfg v _).1, ?_⟩
    have h2 := updateStorage_of_fail cfg v { st with state := v } h
    exact ⟨h2.1, h2.2⟩
  · intro α ρ cfg st v hld hsk hfr h
    unfold asyncSetCurrent asyncAssign asyncEffectRun
    cases henc : (cfg.beforeWrite v).bind cfg.codec.enc with
    | none => simp
    | some raw => simp [hfr, hld, hsk, h raw henc]

/-- C5 witness: a concrete sync container whose serializer throws on
stringify. -/
theorem C5_write_failure_isolated_witness :
    (syncSetCurrent
      { key := "k", initialValue := (0 : Nat),
        storage := StorageType.localStore,
        serializer := { parse := fun s => s.toNat?, stringify := fun _ => none },
        syncTabs := true, beforeRead := some, beforeWrite := some,
        writeOk := fun _ _ => true } 4
      { state := 0, store := fun _ => none, writeCalls := 0, parseCalls := 0,
        writeErrors := 0, parseErrors := 0 }).writeErrors = 1 := by
  exact ((C5_write_failure_isolated.1 Nat _ _ 4 (by intro raw h; simp at h)).2).1

/-! Single-field projection forms of the preservation lemmas, convenient
for simp. -/

theorem asyncEffectRun_state {α ρ : Type} (cfg : AsyncCfg α ρ)
    (st : AsyncState α ρ) : (asyncEffectRun cfg st).state = st.state :=
  (asyncEffectRun_preserves cfg st).1

theorem asyncEffectRun_isLoading {α ρ : Type} (cfg : AsyncCfg α ρ)
    (st : AsyncState α ρ) : (asyncEffectRun cfg st).isLoading = st.isLoading :=
  (asyncEffectRun_preserves cfg st).2.1

theorem asyncEffectRun_ready {α ρ : Type} (cfg : AsyncCfg α ρ)
    (st : AsyncState α ρ) : (asyncEffectRun cfg st).ready = st.ready :=
  (asyncEffectRun_preserves cfg st).2.2.1

theorem asyncEffectRun_parseErrors {α ρ : Type} (cfg : AsyncCfg α ρ)
    (st : AsyncState α ρ) :
    (asyncEffectRun cfg st).parseErrors = st.parseErrors :=
  (asyncEffectRun_preserves cfg st).2.2.2.1

theorem asyncEffectRun_hydrationErrors {α ρ : Type} (cfg : AsyncCfg α ρ)
    (st : AsyncState α ρ) :
    (asyncEffectRun cfg st).hydrationErrors = st.hydrationErrors :=
  (asyncEffectRun_preserves cfg st).2.2.2.2.1

theorem persistedStateAsync_state {α ρ : Type} (cfg : AsyncCfg α ρ)
    (idb : String → Option ρ) :
    (persistedStateAsync cfg idb).state = cfg.initialValue :=
  (asyncEffectRun_preserves cfg _).1

theorem persistedStateAsync_isLoading {α ρ : Type} (cfg : AsyncCfg α ρ)
    (idb : String → Option ρ) :
    (persistedStateAsync cfg idb).isLoading = true :=
  (asyncEffectRun_preserves cfg _).2.1

theorem persistedStateAsync_ready {α ρ : Type} (cfg : AsyncCfg α ρ)
    (idb : String → Option ρ) :
    (persistedStateAsync cfg idb).ready = Ready.pending :=
  (asyncEffectRun_preserves cfg _).2.2.1

theorem persistedStateAsync_parseErrors {α ρ : Type} (cfg : AsyncCfg α ρ)
    (idb : String → Option ρ) :
    (persistedStateAsync cfg idb).parseErrors = 0 :=
  (asyncEffectRun_preserves cfg _).2.2.2.1

theorem persistedStateAsync_hydrationErrors {α ρ : Type} (cfg : AsyncCfg α ρ)
    (idb : String → Option ρ) :
    (persistedStateAsync cfg idb).hydrationErrors = 0 :=
  (asyncEffectRun_preserves cfg _).2.2.2.2.1

/-- C4: full characterization of the hydration outcomes of a freshly
constructed asynchronous container. A stored raw value that fails to
decode invokes onParseError once, the cell falls back to initialValue and
hydration still completes (isLoading clears and the readiness future
resolves). An open or connection-level read failure invokes
onHydrationError once, isLoading clears, the readiness future rejects and
the cell keeps initialValue. The two success shapes invoke no error
callback, so these are the only two error outcomes of hydration. -/
theorem C4_hydration_error_paths {α ρ : Type} (cfg : AsyncCfg α ρ)
    (idb : String → Option ρ) :
    (∀ r, idb cfg.key = some r →
      (cfg.codec.dec r).bind cfg.beforeRead = none →
      (hydrate cfg (HydrationRead.ok (idb cfg.key))
          (persistedStateAsync cfg idb)).state = cfg.initialValue ∧
      (hydrate cfg (HydrationRead.ok (idb cfg.key))
          (persistedStateAsync cfg idb)).parseErrors = 1 ∧
      (hydrate cfg (HydrationRead.ok (idb cfg.key))
          (persistedStateAsync cfg idb)).isLoading = false ∧
      (hydrate cfg (HydrationRead.ok (idb cfg.key))
          (persistedStateAsync cfg idb)).ready =
        Ready.resolved cfg.initialValue ∧
      (hydrate cfg (HydrationRead.ok (idb cfg.key))
          (persistedStateAsync cfg idb)).hydrationErrors = 0) ∧
    ((hydrate cfg HydrationRead.connErr
          (persistedStateAsync cfg idb)).state = cfg.initialValue ∧
      (hydrate cfg HydrationRead.connErr
          (persistedStateAsync cfg idb)).hydrationErrors = 1 ∧
      (hydrate cfg HydrationRead.connErr
          (persistedStateAsync cfg idb)).isLoading = false ∧
      (hydrate cfg HydrationRead.connErr
          (persistedStateAsync cfg idb)).ready = Ready.rejected ∧
      (hydrate cfg HydrationRead.connErr
          (persistedStateAsync cfg idb)).parseErrors = 0) ∧
    (∀ r w, idb cfg.key = some r →
      (cfg.codec.dec r).bind cfg.beforeRead = some w →
      (hydrate cfg (HydrationRead.ok (idb cfg.key))
          (persistedStateAsync cfg idb)).state = w ∧
      (hydrate cfg (HydrationRead.ok (idb cfg.key))
          (persistedStateAsync cfg idb)).ready = Ready.resolved w ∧
      (hydrate cfg (HydrationRead.ok (idb cfg.key))
          (persistedStateAsync cfg idb)).isLoading = false ∧
      (hydrate cfg (HydrationRead.ok (idb cfg.key))
          (persistedStateAsync cfg idb)).parseErrors = 0 ∧
      (hydrate cfg (HydrationRead.ok (idb cfg.key))
          (persistedStateAsync cfg idb)).hydrationErrors = 0) ∧
    (idb cfg.key = none →
      (hydrate cfg (HydrationRead.ok (idb cfg.key))
          (persistedStateAsync cfg idb)).state = cfg.initialValue ∧
      (hydrate cfg (HydrationRead.ok (idb cfg.key))
          (persistedStateAsync cfg idb)).ready =
        Ready.resolved cfg.initialValue ∧
      (hydrate cfg (HydrationRead.ok (idb cfg.key))
          (persistedStateAsync cfg idb)).isLoading = false ∧
      (hydrate cfg (HydrationRead.ok (idb cfg.key))
          (persistedStateAsync cfg idb)).parseErrors = 0 ∧
      (hydrate cfg (HydrationRead.ok (idb cfg.key))
          (persistedStateAsync cfg idb)).hydrationErrors = 0) := by
  refine ⟨?_, ?_, ?_, ?_⟩
  · intro r hr hdec
    rw [hr]
    simp [hydrate, hdec, asyncEffectRun_state, asyncEffectRun_isLoading,
      asyncEffectRun_ready, asyncEffectRun_parseErrors,
      asyncEffectRun_hydrationErrors, persistedStateAsync_state,
      persistedStateAsync_parseErrors, persistedStateAsync_hydrationErrors]
  · simp [hydrate, asyncEffectRun_state, asyncEffectRun_isLoading,
      asyncEffectRun_ready, asyncEffectRun_parseErrors,
      asyncEffectRun_hydrationErrors, persistedStateAsync_state,
      persistedStateAsync_parseErrors, persistedStateAsync_hydrationErrors]
  · intro r w hr hdec
    rw [hr]
    simp [hydrate, hdec, asyncEffectRun_state, asyncEffectRun_isLoading,
      asyncEffectRun_ready, asyncEffectRun_parseErrors,
      asyncEffectRun_hydrationErrors, persistedStateAsync_parseErrors,
      persistedStateAsync_hydrationErrors]
  · intro hr
    rw [hr]
    simp [hydrate, asyncEffectRun_state, asyncEffectRun_isLoading,
      asyncEffectRun_ready, asyncEffectRun_parseErrors,
      asyncEffectRun_hydrationErrors, persistedStateAsync_state,
      persistedStateAsync_parseErrors, persistedStateAsync_hydrationErrors]

/-- A concrete asynchronous configuration over Nat whose codec decode
always throws, for the C4 witness. -/
def c4Cfg : AsyncCfg Nat Nat :=
  { key := "k", initialValue := 9,
    codec := { enc := fun v => some v, dec := fun _ => none },
    syncTabs := true, beforeRead := some, beforeWrite := some,
    writeOk := fun _ _ => true }

/-- The concrete object store for the C4 witness. -/
def c4Idb : String → Option Nat := fun k => if k = "k" then some 5 else none

/-- C4 witness: a concrete hydration over Nat whose stored value fails to
decode, falling back to the initial value with the readiness future
resolved. -/
theorem C4_hydration_error_paths_witness :
    (hydrate c4Cfg (HydrationRead.ok (c4Idb "k"))
        (persistedStateAsync c4Cfg c4Idb)).state = 9 ∧
    (hydrate c4Cfg (HydrationRead.ok (c4Idb "k"))
        (persistedStateAsync c4Cfg c4Idb)).ready = Ready.resolved 9 := by
  have h := (C4_hydration_error_paths c4Cfg c4Idb).1 5 rfl rfl
  exact ⟨h.1, h.2.2.2.1⟩

/-- C6: the asynchronous broadcast inbound path. A message with the
container's key sets current to beforeRead of the decoded (or, with the
native codec, as-is) value and issues no outbound persist and no outbound
broadcast for that update; a message with a different key leaves the whole
container state unchanged; a decode failure on a matching message invokes
onParseError once and leaves current, the object store and the outbound
broadcasts unchanged. -/
theorem C6_broadcast_inbound {α ρ : Type} (cfg : AsyncCfg α ρ)
    (st : AsyncState α ρ) (msg : BroadcastMsg ρ) :
    (∀ w, cfg.syncTabs = true → msg.key = cfg.key →
      (cfg.codec.dec msg.value).bind cfg.beforeRead = some w →
      (broadcastRecv cfg msg st).state = w ∧
      (broadcastRecv cfg msg st).idb = st.idb ∧
      (broadcastRecv cfg msg st).broadcasts = st.broadcasts) ∧
    (msg.key ≠ cfg.key → broadcastRecv cfg msg st = st) ∧
    (cfg.syncTabs = true → msg.key = cfg.key →
      (cfg.codec.dec msg.value).bind cfg.beforeRead = none →
      (broadcastRecv cfg msg st).state = st.state ∧
      (broadcastRecv cfg msg st).parseErrors = st.parseErrors + 1 ∧
      (broadcastRecv cfg msg st).idb = st.idb ∧
      (broadcastRecv cfg msg st).broadcasts = st.broadcasts) := by
  refine ⟨?_, ?_, ?_⟩
  · intro w hsync hkey hdec
    unfold broadcastRecv
    rw [if_pos ⟨hsync, hkey⟩, hdec]
    refine ⟨asyncEffectRun_state cfg _, ?_, ?_⟩
    · exact (asyncEffectRun_suppressed cfg _ rfl).1
    · exact (asyncEffectRun_suppressed cfg _ rfl).2
  · intro hkey
    unfold broadcastRecv
    rw [if_neg (fun hc => hkey hc.2)]
  · intro hsync hkey hdec
    unfold broadcastRecv
    rw [if_pos ⟨hsync, hkey⟩, hdec]
    exact ⟨rfl, rfl, rfl, rfl⟩

/-- A concrete asynchronous configuration over Nat with the native codec,
for the C6 witness. -/
def c6Cfg : AsyncCfg Nat Nat :=
  { key := "k", initialValue := 0, codec := nativeCodec, syncTabs := true,
    beforeRead := some, beforeWrite := some, writeOk := fun _ _ => true }

/-- A concrete hydrated container state for the C6 witness. -/
def c6St : AsyncState Nat Nat :=
  { state := 1, isLoading := false, ready := Ready.resolved 1,
    skipNextWrite := false, isFirstRun := false, idb := fun _ => none,
    broadcasts := [], parseErrors := 0, writeErrors := 0,
    hydrationErrors := 0, hydratedCalls := [1] }

/-- C6 witness: a concrete matching broadcast message carried over the
native codec updates the cell and leaves the object store untouched. -/
theorem C6_broadcast_inbound_witness :
    (broadcastRecv c6Cfg { key := "k", value := 8 } c6St).state = 8 ∧
    (broadcastRecv c6Cfg { key := "k", value := 8 } c6St).broadcasts = [] := by
  have h := (C6_broadcast_inbound c6Cfg c6St { key := "k", value := 8 }).1
    8 rfl rfl rfl
  exact ⟨h.1, h.2.2⟩

/-- A serializer over Nat under which 0 round-trips through the empty
string, for the C1 counterexample. -/
def c1Ser : Serializer Nat :=
  { parse := fun s => if s = "" then some 0 else none,
    stringify := fun n => some (if n = 0 then "" else "x") }

/-- A synchronous configuration using c1Ser with initial value 1, for the
C1 counterexample. -/
def c1Cfg : SyncCfg Nat :=
  { key := "k", initialValue := 1, storage := StorageType.localStore,
    serializer := c1Ser, syncTabs := true, beforeRead := some,
    beforeWrite := some, writeOk := fun _ _ => true }

/-- C1 counterexample: the serialized form of the value 0 under c1Ser is
the empty string and it round-trips (parse recovers 0), yet constructing
the synchronous container with that raw form durably stored under the key
yields current equal to the initial value 1, not the stored value 0: the
truthiness test on the raw item treats the empty string as absent. -/
theorem C1_counterexample :
    c1Ser.stringify 0 = some "" ∧
    c1Ser.parse "" = some 0 ∧
    (persistedState c1Cfg (fun k => if k = "k" then some "" else none)).state
      = 1 ∧
    (1 : Nat) ≠ 0 := by
  refine ⟨rfl, rfl, ?_, by decide⟩
  exact (C10_empty_string_absent.1 Nat c1Cfg _ rfl).1

/-- C1 amended: for every backend, a durably stored value v is recovered
at construction provided its serialized raw form is non-empty for the
synchronous backends (local, session, cookie — a stored empty string is
treated as absent, yielding initialValue); for the asynchronous backend
any stored raw value that decodes to v is recovered once hydration
completes, with the readiness future resolving to v. -/
theorem C1_stored_value_recovered :
    (∀ (α : Type) (ser : Serializer α) (key : String) (init : α)
        (stype : StorageType) (wOk : String → String → Bool)
        (store : String → Option String) (s : String) (v : α),
      ser.parse s = some v → s ≠ "" → store key = some s →
      (persistedState
          { key := key, initialValue := init, storage := stype,
            serializer := ser, syncTabs := true, beforeRead := some,
            beforeWrite := some, writeOk := wOk } store).state = v) ∧
    (∀ (α ρ : Type) (cfg : AsyncCfg α ρ) (idb : String → Option ρ)
        (r : ρ) (v : α),
      idb cfg.key = some r → (cfg.codec.dec r).bind cfg.beforeRead = some v →
      (hydrate cfg (HydrationRead.ok (idb cfg.key))
          (persistedStateAsync cfg idb)).state = v ∧
      (hydrate cfg (HydrationRead.ok (idb cfg.key))
          (persistedStateAsync cfg idb)).ready = Ready.resolved v ∧
      (hydrate cfg (HydrationRead.ok (idb cfg.key))
          (persistedStateAsync cfg idb)).isLoading = false) := by
  constructor
  · intro α ser key init stype wOk store s v hparse hne hstore
    unfold persistedState
    rw [hstore]
    simp only [if_neg hne, hparse, Option.bind_some]
    exact (updateStorage_preserves _ _ _).1
  · intro α ρ cfg idb r v hr hdec
    have h := (C4_hydration_error_paths cfg idb).2.2.1 r v hr hdec
    exact ⟨h.1, h.2.1, h.2.2.1⟩

/-- C1 witness: a concrete decimal serializer over Nat recovering a stored
7 at construction of the synchronous container. -/
theorem C1_stored_value_recovered_witness :
    (persistedState
      { key := "k", initialValue := (0 : Nat),
        storage := StorageType.localStore,
        serializer :=
          { parse := fun s => if s = "7" then some 7 else none,
            stringify := fun n => some (if n = 7 then "7" else "x") },
        syncTabs := true, beforeRead := some, beforeWrite := some,
        writeOk := fun _ _ => true }
      (fun k => if k = "k" then some "7" else none)).state = 7 := by
  exact C1_stored_value_recovered.1 Nat
    { parse := fun s => if s = "7" then some 7 else none,
      stringify := fun n => some (if n = 7 then "7" else "x") }
    "k" 0 StorageType.localStore (fun _ _ => true)
    (fun k => if k = "k" then some "7" else none) "7" 7 (by decide)
    (by decide) rfl

/-- The asynchronous configuration for the C2 counterexample: native
codec over Nat, initial value 0. -/
def c2Cfg : AsyncCfg Nat Nat :=
  { key := "k", initialValue := 0, codec := nativeCodec, syncTabs := true,
    beforeRead := some, beforeWrite := some, writeOk := fun _ _ => true }

/-- The object store for the C2 counterexample, holding 5 under the key. -/
def c2Idb : String → Option Nat := fun k => if k = "k" then some 5 else none

/-- C2 counterexample: with 5 durably stored, mutating current to 7 after
construction but before hydration completes is overwritten when the
hydration read resolves — current becomes the stored 5, not the mutated
7, and the readiness future resolves with 5. -/
theorem C2_counterexample :
    (hydrate c2Cfg (HydrationRead.ok (c2Idb "k"))
        (asyncSetCurrent c2Cfg 7 (persistedStateAsync c2Cfg c2Idb))).state
      = 5 ∧
    ¬ (hydrate c2Cfg (HydrationRead.ok (c2Idb "k"))
        (asyncSetCurrent c2Cfg 7 (persistedStateAsync c2Cfg c2Idb))).state
      = 7 ∧
    (hydrate c2Cfg (HydrationRead.ok (c2Idb "k"))
        (asyncSetCurrent c2Cfg 7 (persistedStateAsync c2Cfg c2Idb))).ready
      = Ready.resolved 5 := by
  refine ⟨?_, ?_, ?_⟩ <;> decide

/-- C2 amended: a mutation performed while hydration is pending survives
only when the backend holds no value under the key, in which case
hydration leaves the mutated value in place and the readiness future
resolves with it; when a stored value exists and decodes, hydration
overwrites current with the decoded stored value and the readiness future
resolves with that value instead. -/
theorem C2_prehydration_mutation {α ρ : Type} (cfg : AsyncCfg α ρ)
    (idb : String → Option ρ) (v : α) :
    (idb cfg.key = none →
      (hydrate cfg (HydrationRead.ok (idb cfg.key))
          (asyncSetCurrent cfg v (persistedStateAsync cfg idb))).state = v ∧
      (hydrate cfg (HydrationRead.ok (idb cfg.key))
          (asyncSetCurrent cfg v (persistedStateAsync cfg idb))).ready =
        Ready.resolved v) ∧
    (∀ r w, idb cfg.key = some r →
      (cfg.codec.dec r).bind cfg.beforeRead = some w →
      (hydrate cfg (HydrationRead.ok (idb cfg.key))
          (asyncSetCurrent cfg v (persistedStateAsync cfg idb))).state = w ∧
      (hydrate cfg (HydrationRead.ok (idb cfg.key))
          (asyncSetCurrent cfg v (persistedStateAsync cfg idb))).ready =
        Ready.resolved w) := by
  constructor
  · intro hr
    rw [hr]
    simp [hydrate, asyncSetCurrent, asyncAssign, asyncEffectRun_state,
      asyncEffectRun_ready]
  · intro r w hr hdec
    rw [hr]
    simp [hydrate, hdec, asyncEffectRun_state, asyncEffectRun_ready]

/-- C2 witness: with nothing stored, a pre-hydration mutation to 7 is
preserved through hydration. -/
theorem C2_prehydration_mutation_witness :
    (hydrate c2Cfg (HydrationRead.ok ((fun _ => none : String → Option Nat)
        "k")) (asyncSetCurrent c2Cfg 7
          (persistedStateAsync c2Cfg (fun _ => none)))).state = 7 := by
  exact ((C2_prehydration_mutation c2Cfg (fun _ => none) 7).1 rfl).1

/-- The decimal-for-5 serializer of the C3 counterexample. -/
def c3Ser : Serializer Nat :=
  { parse := fun s => if s = "5" then some 5 else none,
    stringify := fun n => some (if n = 5 then "5" else "z") }

/-- The synchronous local-store configuration with syncTabs for the C3
counterexample. -/
def c3Cfg : SyncCfg Nat :=
  { key := "k", initialValue := 0, storage := StorageType.localStore,
    serializer := c3Ser, syncTabs := true, beforeRead := some,
    beforeWrite := some, writeOk := fun _ _ => true }

/-- The container state at the moment the notification arrives: the other
tab has already written the raw 5 to the shared store. -/
def c3St : SyncState Nat :=
  { state := 0, store := fun k => if k = "k" then some "5" else none,
    writeCalls := 0, parseCalls := 0, writeErrors := 0, parseErrors := 0 }

/-- The matching storage-change notification of the C3 counterexample. -/
def c3Evt : StorageEvt :=
  { key := some "k", newValue := some "5", areaIsLocal := true }

/-- C3 counterexample: on a matching storage-change notification the
container does set current to beforeRead of the parsed new value, but the
assignment reruns the persistence effect, which issues an outbound
setItem to the same backend: the backend write-call count rises from 0 to
1, refuting the claim that the inbound update does not re-trigger an
outbound write. -/
theorem C3_counterexample :
    (storageEvent c3Cfg c3Evt c3St).state = 5 ∧
    c3St.writeCalls = 0 ∧
    (storageEvent c3Cfg c3Evt c3St).writeCalls = 1 ∧
    ¬ (storageEvent c3Cfg c3Evt c3St).writeCalls = c3St.writeCalls := by
  refine ⟨?_, rfl, ?_, ?_⟩ <;> decide

/-- C3 amended: on a matching storage-change notification over the local
store with syncTabs on, the container sets current to beforeRead of the
parsed new value, or to beforeRead of initialValue when the notification
carries no value; the inbound assignment reruns the persistence effect,
which writes the received value (through beforeWrite and stringify) back
to the same backend — no echo loop arises only because the platform does
not deliver a storage notification to the tab that produced the write. -/
theorem C3_storage_event_updates {α : Type} (cfg : SyncCfg α)
    (st : SyncState α) (ev : StorageEvt)
    (hsync : cfg.syncTabs = true)
    (hlocal : cfg.storage = StorageType.localStore)
    (hkey : ev.key = some cfg.key) (harea : ev.areaIsLocal = true) :
    (∀ s v w, ev.newValue = some s → s ≠ "" →
      cfg.serializer.parse s = some v → cfg.beforeRead v = some w →
      (storageEvent cfg ev st).state = w) ∧
    (∀ w, ev.newValue = none → cfg.beforeRead cfg.initialValue = some w →
      (storageEvent cfg ev st).state = w) ∧
    (∀ s v w raw, ev.newValue = some s → s ≠ "" →
      cfg.serializer.parse s = some v → cfg.beforeRead v = some w →
      (cfg.beforeWrite w).bind cfg.serializer.stringify = some raw →
      cfg.writeOk cfg.key raw = true →
      (storageEvent cfg ev st).store cfg.key = some raw ∧
      (storageEvent cfg ev st).writeCalls = st.writeCalls + 1) := by
  refine ⟨?_, ?_, ?_⟩
  · intro s v w hnv hne hparse hbr
    unfold storageEvent
    rw [if_pos ⟨hsync, hlocal⟩, if_pos ⟨hkey, harea⟩, hnv]
    simp only [if_neg hne, hparse, hbr]
    exact (updateStorage_preserves cfg _ _).1
  · intro w hnv hbr
    unfold storageEvent
    rw [if_pos ⟨hsync, hlocal⟩, if_pos ⟨hkey, harea⟩, hnv, hbr]
    exact (updateStorage_preserves cfg _ _).1
  · intro s v w raw hnv hne hparse hbr henc hok
    unfold storageEvent
    rw [if_pos ⟨hsync, hlocal⟩, if_pos ⟨hkey, harea⟩, hnv]
    simp only [if_neg hne, hparse, hbr]
    have h := updateStorage_store_of_ok cfg w
      { st with state := w, parseCalls := st.parseCalls + 1 } raw henc hok
    exact ⟨h.1, h.2⟩

/-- C3 witness: the concrete instance of the amended statement, with the
echo write of the received raw value visible in the backend through an
incremented write-call count. -/
theorem C3_storage_event_updates_witness :
    (storageEvent c3Cfg c3Evt c3St).store "k" = some "5" ∧
    (storageEvent c3Cfg c3Evt c3St).writeCalls = 1 := by
  exact (C3_storage_event_updates c3Cfg c3St c3Evt rfl rfl rfl rfl).2.2
    "5" 5 5 "5" rfl (by decide) rfl rfl rfl rfl

/-- The empty registry of the C7 scenario. -/
def c7Reg0 : Registry := { cache := [], nextId := 0, openHandles := [] }

/-- C7 counterexample: two holders open the default identity triple; both
receive the one cached connection (handle 0) and the registry keeps no
per-holder count — a single closeDB then closes the shared handle (the
open-handle set becomes empty) even though the second holder still
references it, refuting reference counting. -/
theorem C7_counterexample :
    (openDB {} c7Reg0).1 = (openDB {} (openDB {} c7Reg0).2).1 ∧
    (openDB {} (openDB {} c7Reg0).2).2.cache.length = 1 ∧
    (closeDB {} (openDB {} (openDB {} c7Reg0).2).2).openHandles = [] := by
  refine ⟨?_, ?_, ?_⟩ <;> decide

/-- Lookup after evicting a key from the cache finds nothing. -/
theorem lookupCache_filter_ne (cache : List (String × DBConnection))
    (k : String) :
    lookupCache (cache.filter (fun p => p.1 != k)) k = none := by
  induction cache with
  | nil => rfl
  | cons hd tl ih =>
    by_cases h : hd.1 = k
    · simp [List.filter_cons, h, ih]
    · have hb : (hd.1 == k) = false := beq_eq_false_iff_ne.mpr h
      simp [List.filter_cons, hb, lookupCache, h, ih]

/-- C7 amended: the connection registry caches one connection per
(database name, object-store name, schema version) identity triple —
opening the same triple twice returns the one cached connection and
leaves the registry unchanged — and supports closing one identity (its
handle is closed and the cache entry evicted) and closing all cached
connections in bulk (the cache empties); but it is not reference-counted:
closeDB closes the cached handle unconditionally, regardless of how many
holders obtained it. -/
theorem C7_connection_registry :
    (∀ (o : IndexedDBOptions) (r : Registry),
      (openDB o (openDB o r).2).1 = (openDB o r).1 ∧
      (openDB o (openDB o r).2).2 = (openDB o r).2) ∧
    (∀ (o : IndexedDBOptions) (r : Registry) (c : DBConnection),
      lookupCache r.cache (resolvedCacheKey o) = some c →
      (closeDB o r).openHandles = r.openHandles.erase c.db ∧
      lookupCache (closeDB o r).cache (resolvedCacheKey o) = none) ∧
    (∀ r : Registry, (closeAllDBs r).cache = []) := by
  refine ⟨?_, ?_, fun r => rfl⟩
  · intro o r
    unfold openDB
    cases h : lookupCache r.cache (resolvedCacheKey o) with
    | some cached => simp [h]
    | none => simp [h, lookupCache]
  · intro o r c h
    simp only [closeDB, h]
    exact ⟨trivial, lookupCache_filter_ne r.cache (resolvedCacheKey o)⟩

/-- C7 witness: closing the default identity on a registry holding it
evicts the cached connection and closes its handle. -/
theorem C7_connection_registry_witness :
    (closeDB {} (openDB {} c7Reg0).2).openHandles = [] ∧
    lookupCache (closeDB {} (openDB {} c7Reg0).2).cache
      (resolvedCacheKey {}) = none := by
  have h := C7_connection_registry.2.1 {} (openDB {} c7Reg0).2
    { db := 0, storeName := "state" } (by decide)
  exact ⟨by rw [h.1]; decide, h.2⟩

end PersistedState
